import Mathlib

set_option autoImplicit false

namespace OllamaBench

/-! Shallow embedding of the `ollama-bench` benchmarking harness:
`ollama_bench/models.py` (the `Model` dataclass with its dynamic
dictionary round-trip) and the core of `ollama_bench/cli.py`'s
`benchmark` command (prompt resolution, model selection, the bounded
scheduler, outcome classification and report serialization). -/

/-- Python values as they occur in the dynamic dictionaries handled by
`models.py`: `None`, booleans, integers, strings, lists, and string-keyed
dictionaries represented as association lists in insertion order. -/
inductive Val : Type where
  | vNull : Val
  | vBool : Bool → Val
  | vInt : Int → Val
  | vStr : String → Val
  | vList : List Val → Val
  | vDict : List (String × Val) → Val

/-- Python truthiness `bool(v)`: `None`, `False`, `0`, the empty string, the
empty list and the empty dict are falsy; everything else is truthy. -/
def Val.truthy : Val → Bool
  | Val.vNull => false
  | Val.vBool b => b
  | Val.vInt n => n != 0
  | Val.vStr s => s != ""
  | Val.vList xs => !xs.isEmpty
  | Val.vDict d => !d.isEmpty

/-- Python `a or b`: the first operand when truthy, otherwise the second. -/
def Val.pyOr (a b : Val) : Val :=
  if a.truthy then a else b

/-- Python `v == s` for a string `s`: true exactly for an equal string value
(equality between a string and a value of any other type is `False`). -/
def Val.eqStr (v : Val) (s : String) : Bool :=
  match v with
  | Val.vStr t => t == s
  | _ => false

/-- Python dictionaries with string keys, in insertion order. -/
abbrev PyDict := List (String × Val)

/-- Python `d.get(k)`: the stored value, or `None` when the key is absent. -/
def dictGet (d : PyDict) (k : String) : Val :=
  match d.find? (fun kv => kv.1 == k) with
  | some kv => kv.2
  | none => Val.vNull

/-- Python `k in d` on a dict: whether the key is present. -/
def containsKey (d : PyDict) (k : String) : Bool :=
  d.any (fun kv => kv.1 == k)

/-- Python `d[k] = v`: overwrite in place when the key exists, else append
(CPython dicts preserve insertion order). -/
def dictSet (d : PyDict) (k : String) (v : Val) : PyDict :=
  if containsKey d k then d.map (fun kv => if kv.1 == k then (k, v) else kv)
  else d ++ [(k, v)]

/-- Python `repr(v)`, as used by `str` on containers: inner strings are
quoted with `\x27`. -/
def Val.pyRepr : Val → String
  | Val.vNull => "None"
  | Val.vBool b => if b then "True" else "False"
  | Val.vInt n => toString n
  | Val.vStr s => "\x27" ++ s ++ "\x27"
  | Val.vList xs => "[" ++ String.intercalate (", ") (xs.attach.map (fun x => Val.pyRepr x.1)) ++ "]"
  | Val.vDict d => "\x7b" ++ String.intercalate (", ") (d.attach.map (fun kv => "\x27" ++ kv.1.1 ++ "\x27: " ++ Val.pyRepr kv.1.2)) ++ "\x7d"
termination_by v => sizeOf v
decreasing_by
  · have h := List.sizeOf_lt_of_mem x.2
    simp only [Val.vList.sizeOf_spec]
    omega
  · obtain ⟨⟨k, v⟩, hm⟩ := kv
    have h := List.sizeOf_lt_of_mem hm
    simp only [Prod.mk.sizeOf_spec] at h
    simp only [Val.vDict.sizeOf_spec]
    omega

/-- Python `str(v)`: a string prints as itself, every other value as its
`repr`. -/
def Val.pyStr (v : Val) : String :=
  match v with
  | Val.vStr s => s
  | v => v.pyRepr

/-- Approximation of CPython `datetime.fromisoformat` composed with
`isoformat`: the parsed datetime is represented by its ISO string, and the
check accepts exactly date-shaped `YYYY-MM-DD` strings. No claim depends on
which strings CPython accepts, only on whether parsing yields a value. -/
def fromisoformat (s : String) : Option String :=
  match s.toList with
  | y1 :: y2 :: y3 :: y4 :: h1 :: m1 :: m2 :: h2 :: d1 :: d2 :: rest =>
    if y1.isDigit && y2.isDigit && y3.isDigit && y4.isDigit && (h1 == '-') &&
        m1.isDigit && m2.isDigit && (h2 == '-') && d1.isDigit && d2.isDigit && rest.isEmpty
    then some s else none
  | _ => none

/-- Embeds `_parse_datetime` of `models.py` on decoded-JSON values: `None`
maps to `None`, any other value goes through `fromisoformat(str(value))`
with a parse failure swallowed to `None`. (The `isinstance(value, datetime)`
branch of the source cannot occur on decoded values and has no counterpart
in `Val`.) -/
def parse_datetime (v : Val) : Option String :=
  match v with
  | Val.vNull => none
  | v => fromisoformat (Val.pyStr v)

/-- Embeds the `Model` dataclass of `models.py`. `modified_at` holds the
parsed datetime, represented by its ISO string; the other dynamic fields
keep their Python value; `meta` is the preserved raw mapping. Field defaults
are the dataclass defaults. -/
structure Model where
  name : Val
  id : Val := Val.vNull
  modified_at : Option String := none
  size : Val := Val.vNull
  parameter_size : Val := Val.vNull
  quantization_level : Val := Val.vNull
  family : Val := Val.vNull
  context_length : Val := Val.vNull
  capabilities : Val := Val.vNull
  meta : PyDict := []

instance : Inhabited Model := ⟨{ name := Val.vNull }⟩

/-- Embeds `Model.from_dict` on a dict argument (the source also accepts
strings and attribute-bearing objects; the claims quantify over dicts, which
have no `dict` attribute and so skip the pydantic branch). Returns `none`
exactly when the source raises: when `data["details"]` is truthy but not a
dict, its `.get` calls raise `AttributeError`. -/
def Model.from_dict (data : PyDict) : Option Model :=
  let name := Val.pyOr (dictGet data ("name")) (Val.pyOr (dictGet data ("model"))
    (Val.pyOr (dictGet data ("id")) (Val.vStr (Val.pyStr (Val.vDict data)))))
  let modified := parse_datetime (Val.pyOr (dictGet data ("modified_at"))
    (Val.pyOr (dictGet data ("modifiedAt")) (dictGet data ("modified"))))
  match Val.pyOr (dictGet data ("details")) (Val.vDict []) with
  | Val.vDict details =>
    some { name := name
         , id := Val.pyOr (dictGet data ("id")) (dictGet data ("model"))
         , modified_at := modified
         , size := Val.pyOr (dictGet data ("size")) (dictGet details ("size"))
         , parameter_size := Val.pyOr (dictGet details ("parameter_size"))
             (Val.pyOr (dictGet details ("parameterSize")) (dictGet data ("parameter_size")))
         , quantization_level := Val.pyOr (dictGet details ("quantization_level"))
             (Val.pyOr (dictGet details ("quantizationLevel")) (dictGet data ("quantization_level")))
         , family := Val.pyOr (dictGet details ("family")) (dictGet data ("family"))
         , context_length := Val.pyOr (dictGet data ("context_length"))
             (Val.pyOr (dictGet data ("contextLength")) (dictGet details ("context_length")))
         , capabilities := Val.pyOr (dictGet data ("capabilities"))
             (Val.pyOr (dictGet data ("capability")) (Val.vList []))
         , meta := data }
  | _ => none

/-- Embeds `Model.to_dict`: start from a copy of the raw `meta` mapping
(`dict(self.meta) if self.meta else {}`, which is the same mapping either
way), then set `name` unconditionally and each remaining normalized field
only when truthy (a datetime object is always truthy, so `modified_at` is
written whenever present). -/
def Model.to_dict (m : Model) : PyDict :=
  let r := m.meta
  let r := dictSet r ("name") m.name
  let r := if m.id.truthy then dictSet r ("id") m.id else r
  let r := match m.modified_at with
           | some iso => dictSet r ("modified_at") (Val.vStr iso)
           | none => r
  let r := if m.size.truthy then dictSet r ("size") m.size else r
  let r := if m.parameter_size.truthy then dictSet r ("parameter_size") m.parameter_size else r
  let r := if m.quantization_level.truthy then dictSet r ("quantization_level") m.quantization_level else r
  let r := if m.family.truthy then dictSet r ("family") m.family else r
  let r := if m.context_length.truthy then dictSet r ("context_length") m.context_length else r
  let r := if m.capabilities.truthy then dictSet r ("capabilities") m.capabilities else r
  r

/-- Default prompt used by the `benchmark` command when none is supplied
(cli.py `DEFAULT_PROMPT`). -/
def DEFAULT_PROMPT : String :=
  "Briefly explain plate tectonics in one paragraph suitable for a general audience, " ++
  "highlighting causes and why it matters for Earth\x27s geography."

/-- Python `line.strip()`: remove leading and trailing whitespace. -/
def pyStrip (s : String) : String :=
  String.mk (((s.toList.dropWhile Char.isWhitespace).reverse.dropWhile Char.isWhitespace).reverse)

/-- Embeds the prompt-resolution block of `cli.benchmark` (lines 133-141).
A given prompts file is modelled by its list of lines (without newline
characters); `line.strip()` is `pyStrip`. The `elif prompt_text:` test is
Python truthiness, so an empty-string prompt falls through to the default. -/
def build_prompts (prompts_file : Option (List String)) (prompt_text : Option String) : List String :=
  match prompts_file with
  | some lines => (lines.map pyStrip).filter (fun s => s != "")
  | none =>
    match prompt_text with
    | some t => if t != "" then [t] else [DEFAULT_PROMPT]
    | none => [DEFAULT_PROMPT]

/-- Fatal model-selection failure: the requested name filter matched no
backend model. The source raises `ValueError` with the requested names and
the available names in the message; the spec calls it `NoMatchingModels`. -/
inductive BenchFailure : Type where
  | noMatchingModels (requested : List String) (available : List Val) : BenchFailure

/-- Embeds the model-selection block of `cli.benchmark` (lines 147-156):
with a non-empty request, keep the backend models whose name equals one of
the requested names (in backend listing order); an empty filter result is
fatal; requested names absent from the listing are collected for the warning
log. An empty request selects every backend model with no warning. -/
def select_models (all_models : List Model) (requested : List String) :
    Except BenchFailure (List Model × List String) :=
  let model_names := all_models.map Model.name
  if !requested.isEmpty then
    let selected := all_models.filter (fun m => requested.any (fun r => m.name.eqStr r))
    if selected.isEmpty then
      Except.error (BenchFailure.noMatchingModels requested model_names)
    else
      Except.ok (selected, requested.filter (fun item => !(model_names.any (fun v => v.eqStr item))))
  else
    Except.ok (all_models, [])

/-- Response dictionary of one generate call as read by `cli.benchmark`: the
four raw counters, the optional response text, and the `error` slot written
by the failure paths. Counters are the nonnegative token/nanosecond counts
the backend reports. -/
structure RespDict where
  prompt_eval_count : Option Nat := none
  prompt_eval_duration : Option Nat := none
  eval_count : Option Nat := none
  eval_duration : Option Nat := none
  response : Option String := none
  error : Option String := none

/-- How one awaited `client.generate` call ends under `asyncio.wait_for`:
normal completion, `asyncio.TimeoutError`, or any other exception (carrying
its `str` description). -/
inductive GenOutcome : Type where
  | ok : RespDict → GenOutcome
  | timedOut : GenOutcome
  | exn : String → GenOutcome

/-- The backend port seen by the scheduler: for each (model name, prompt)
pair, the outcome of the awaited call and the event-loop time it takes. -/
abbrev Backend := Val → String → GenOutcome × Rat

/-- The per-item result dict built by `run_for_model_and_prompt`
(cli.py lines 162-178). -/
structure RawResult where
  model : Model
  prompt : String
  status : String
  elapsed : Rat
  response : RespDict

/-- Embeds `run_for_model_and_prompt`: time the call, classify the outcome,
and record failures as data only (`asyncio.TimeoutError` becomes status
`timeout` with the fixed error dict, any other exception becomes status
`error` with its description). -/
def run_for_model_and_prompt (backend : Backend) (m : Model) (p : String) : RawResult :=
  match backend m.name p with
  | (GenOutcome.ok resp, t) =>
      { model := m, prompt := p, status := "ok", elapsed := t, response := resp }
  | (GenOutcome.timedOut, t) =>
      { model := m, prompt := p, status := "timeout", elapsed := t
      , response := { error := some ("Generate timed out") } }
  | (GenOutcome.exn msg, t) =>
      { model := m, prompt := p, status := "error", elapsed := t
      , response := { error := some msg } }

/-- Embeds `tasks_to_run = [(m, p) for m in selected_models for p in prompts]`
(cli.py line 181): the model × prompt cross-product in input order. -/
def tasks_to_run (models : List Model) (prompts : List String) : List (Model × String) :=
  models.flatMap (fun m => prompts.map (fun p => (m, p)))

/-- Embeds the sequential path (cli.py lines 184-187): one awaited call per
work item, appended in input order. -/
def run_sequential (backend : Backend) (tasks : List (Model × String)) : List RawResult :=
  tasks.map (fun t => run_for_model_and_prompt backend t.1 t.2)

/-- Embeds the concurrent path (cli.py lines 188-198): every item becomes a
task and `asyncio.as_completed` appends results in completion order, modelled
by the permutation `order` of task indices. -/
def run_concurrent (backend : Backend) (tasks : List (Model × String)) (order : List Nat) :
    List RawResult :=
  order.map (fun i => run_for_model_and_prompt backend (tasks.getD i default).1 (tasks.getD i default).2)

/-- Embeds the scheduling branch of `cli.benchmark` (lines 183-198):
`concurrency <= 1` takes the strictly sequential path, anything larger the
semaphore-bounded task set. -/
def schedule (backend : Backend) (concurrency : Int) (order : List Nat)
    (tasks : List (Model × String)) : List RawResult :=
  if concurrency ≤ 1 then run_sequential backend tasks
  else run_concurrent backend tasks order

/-- Embeds the whole `benchmark` pipeline up to result collection: prompt
resolution, model selection (fatal on no match, before any backend generate
call), the model shuffle (given as the index permutation the RNG drew),
cross-product expansion, and scheduling. -/
def benchmark_results (backend : Backend) (all_models : List Model) (requested : List String)
    (shuffleOrd : List Nat) (concurrency : Int) (order : List Nat)
    (prompts_file : Option (List String)) (prompt_text : Option String) :
    Except BenchFailure (List RawResult) :=
  let prompts := build_prompts prompts_file prompt_text
  match select_models all_models requested with
  | Except.error e => Except.error e
  | Except.ok (selected, _) =>
      let shuffled := shuffleOrd.map (fun i => selected.getD i default)
      Except.ok (schedule backend concurrency order (tasks_to_run shuffled prompts))

/-- Python truthiness of `resp.get(key)` for an optional counter: present
and nonzero. -/
def truthyCount : Option Nat → Bool
  | none => false
  | some n => n != 0

/-- The `metrics` object of an ok result entry (cli.py lines 223-233): the
four raw counters copied through, and each rate included only when its count
and duration are both truthy. Division is modelled exactly over ℚ. -/
structure Metrics where
  prompt_eval_count : Option Nat
  prompt_eval_duration : Option Nat
  eval_count : Option Nat
  eval_duration : Option Nat
  prompt_tokens_per_sec : Option Rat
  response_tokens_per_sec : Option Rat

/-- Builds the `metrics` payload of an ok entry from the raw response. -/
def build_metrics (resp : RespDict) : Metrics :=
  { prompt_eval_count := resp.prompt_eval_count
  , prompt_eval_duration := resp.prompt_eval_duration
  , eval_count := resp.eval_count
  , eval_duration := resp.eval_duration
  , prompt_tokens_per_sec :=
      if truthyCount resp.prompt_eval_count && truthyCount resp.prompt_eval_duration then
        some (((resp.prompt_eval_count.getD 0 : Nat) : Rat) /
          ((resp.prompt_eval_duration.getD 0 : Nat) : Rat) * (1000000000 : Rat))
      else none
  , response_tokens_per_sec :=
      if truthyCount resp.eval_count && truthyCount resp.eval_duration then
        some (((resp.eval_count.getD 0 : Nat) : Rat) /
          ((resp.eval_duration.getD 0 : Nat) : Rat) * (1000000000 : Rat))
      else none }

/-- One element of `output_data["results"]` in the JSON output path
(cli.py lines 212-240). `metrics`, `response` and `error` are optional;
the other four fields are written for every entry. -/
structure ResultEntry where
  model : Val
  prompt : String
  status : String
  elapsed : Rat
  metrics : Option Metrics
  response : Option String
  error : Option String

/-- Embeds the JSON result-entry builder: status `ok` gets a `metrics`
payload (plus the response text when `--response` was given); every other
status gets `error` from the failure dict with the `Unknown error`
fallback. -/
def make_result_entry (includeResponse : Bool) (r : RawResult) : ResultEntry :=
  if r.status = "ok" then
    { model := r.model.name, prompt := r.prompt, status := r.status, elapsed := r.elapsed
    , metrics := some (build_metrics r.response)
    , response := if includeResponse then some (r.response.response.getD ("")) else none
    , error := none }
  else
    { model := r.model.name, prompt := r.prompt, status := r.status, elapsed := r.elapsed
    , metrics := none
    , response := none
    , error := some (r.response.error.getD ("Unknown error")) }

/-- The `results` array of the JSON report: one entry per collected result,
in collection order. -/
def serialize_results (includeResponse : Bool) (results : List RawResult) : List ResultEntry :=
  results.map (make_result_entry includeResponse)

/-- State of the semaphore-bounded task set (cli.py lines 190-198):
`permits` is the semaphore's internal counter, `pending` counts `sem_task`
coroutines not yet admitted, `running` counts generate calls in flight (the
semaphore held), `done` counts completed items. -/
structure SchedState where
  permits : Nat
  pending : Nat
  running : Nat
  done : Nat

/-- One event-loop transition of the task set: admission (guarded only by a
free semaphore permit — the sole admission-control mechanism) or completion
of an in-flight call (which releases its permit on exit from `async with`,
success or failure alike). -/
inductive SchedStep : SchedState → SchedState → Prop where
  | acquire (s : SchedState) (hp : 0 < s.permits) (hw : 0 < s.pending) :
      SchedStep s ⟨s.permits - 1, s.pending - 1, s.running + 1, s.done⟩
  | release (s : SchedState) (hr : 0 < s.running) :
      SchedStep s ⟨s.permits + 1, s.pending, s.running - 1, s.done + 1⟩

/-- States reachable from `n` queued work items and a fresh
`asyncio.Semaphore(c)`. -/
inductive SchedReachable (c n : Nat) : SchedState → Prop where
  | init : SchedReachable c n ⟨c, n, 0, 0⟩
  | step (s t : SchedState) (h : SchedReachable c n s) (hs : SchedStep s t) :
      SchedReachable c n t

/-- Fixture: a backend model named `model-a`. -/
def modelA : Model :=
  { name := Val.vStr ("model-a") }

/-- Fixture: a backend model named `model-b`. -/
def modelB : Model :=
  { name := Val.vStr ("model-b") }

/-- Fixture: a backend whose every generate call times out. -/
def backendTimeout : Backend :=
  fun _ _ => (GenOutcome.timedOut, 0)

/-- Fixture: a backend whose every generate call raises. -/
def backendFail : Backend :=
  fun _ _ => (GenOutcome.exn ("connection refused"), 0)

/-- Fixture: a response carrying the rate-derivation example counters of the
spec (prompt count 100 over one second, response duration zero). -/
def respExample : RespDict :=
  { prompt_eval_count := some 100
  , prompt_eval_duration := some 1000000000
  , eval_count := some 50
  , eval_duration := some 0 }

/-- Fixture: one timed-out raw result. -/
def rawT : RawResult :=
  run_for_model_and_prompt backendTimeout modelA ("p")

/-- Fixture: the serialized entry of `rawT`. -/
def entryT : ResultEntry :=
  make_result_entry false rawT

/-- Fixture: a raw backend model dict with a name and an extra passthrough
key. -/
def dExample : PyDict :=
  [("name", Val.vStr ("m")), ("size", Val.vInt 7)]

/-- Fixture: the `Model` that `from_dict` builds from `dExample`. -/
def modelExample : Model :=
  { name := Val.vStr ("m")
  , id := Val.vNull
  , modified_at := none
  , size := Val.vInt 7
  , parameter_size := Val.vNull
  , quantization_level := Val.vNull
  , family := Val.vNull
  , context_length := Val.vNull
  , capabilities := Val.vList []
  , meta := dExample }

/-- Mapping the completion-order indices over a list recovers the list when
the indices are exactly `0, …, length-1` in order. -/
theorem map_getD_range {α : Type} (l : List α) (d : α) :
    (List.range l.length).map (fun i => l.getD i d) = l := by
  induction l with
  | nil => simp
  | cons a t ih =>
    rw [List.length_cons, List.range_succ_eq_map, List.map_cons, List.map_map]
    simp only [Function.comp_def, List.getD_cons_zero, List.getD_cons_succ]
    rw [ih]

/-- The cross-product has exactly `|models| × |prompts|` work items. -/
theorem length_tasks_to_run (models : List Model) (prompts : List String) :
    (tasks_to_run models prompts).length = models.length * prompts.length := by
  induction models with
  | nil => simp [tasks_to_run]
  | cons m ms ih =>
    simp only [tasks_to_run, List.flatMap_cons, List.length_append, List.length_map,
      List.length_cons] at ih ⊢
    rw [ih, Nat.add_mul, Nat.one_mul, Nat.add_comm]

/-- Collecting in any completion order permutes the sequential result list. -/
theorem run_concurrent_perm (backend : Backend) (tasks : List (Model × String))
    (order : List Nat) (h : order.Perm (List.range tasks.length)) :
    (run_concurrent backend tasks order).Perm (run_sequential backend tasks) := by
  unfold run_concurrent run_sequential
  have h2 := h.map (fun i =>
    run_for_model_and_prompt backend (tasks.getD i default).1 (tasks.getD i default).2)
  have h3 : (List.range tasks.length).map (fun i =>
      run_for_model_and_prompt backend (tasks.getD i default).1 (tasks.getD i default).2)
      = tasks.map (fun t => run_for_model_and_prompt backend t.1 t.2) := by
    have h4 : (List.range tasks.length).map (fun i =>
        run_for_model_and_prompt backend (tasks.getD i default).1 (tasks.getD i default).2)
        = ((List.range tasks.length).map (fun i => tasks.getD i default)).map
            (fun t => run_for_model_and_prompt backend t.1 t.2) := by
      rw [List.map_map]
      rfl
    rw [h4, map_getD_range]
  rw [h3] at h2
  exact h2

/-- C1: over a selected model list and prompt list, both scheduling paths
produce exactly one AttemptResult per (model, prompt) work item of the
cross-product — the collected results are a permutation of the per-item
results (no drop, no duplicate) and number `|models| × |prompts|` — for any
backend behaviour, timeouts and errors included. -/
theorem C1_one_result_per_work_item (backend : Backend) (models : List Model)
    (prompts : List String) (concurrency : Int) (order : List Nat)
    (horder : order.Perm (List.range (tasks_to_run models prompts).length)) :
    (schedule backend concurrency order (tasks_to_run models prompts)).Perm
      ((tasks_to_run models prompts).map (fun t => run_for_model_and_prompt backend t.1 t.2)) ∧
    (schedule backend concurrency order (tasks_to_run models prompts)).length
      = models.length * prompts.length := by
  have hperm : (schedule backend concurrency order (tasks_to_run models prompts)).Perm
      ((tasks_to_run models prompts).map (fun t => run_for_model_and_prompt backend t.1 t.2)) := by
    unfold schedule
    by_cases hc : concurrency ≤ 1
    · rw [if_pos hc]
      unfold run_sequential
      exact List.Perm.refl _
    · rw [if_neg hc]
      have h := run_concurrent_perm backend (tasks_to_run models prompts) order horder
      unfold run_sequential at h
      exact h
  refine ⟨hperm, ?_⟩
  rw [hperm.length_eq, List.length_map, length_tasks_to_run]

/-- Witness for C1 at a concrete run: one model, one prompt, concurrency 2,
completion order `[0]`, backend that always times out. -/
theorem C1_witness :
    List.Perm [0] (List.range (tasks_to_run [modelA] [("p")]).length) ∧
    (schedule backendTimeout 2 [0] (tasks_to_run [modelA] [("p")])).length = 1 * 1 := by
  have h : List.Perm [0] (List.range (tasks_to_run [modelA] [("p")]).length) := by
    have e : List.range (tasks_to_run [modelA] [("p")]).length = [0] := rfl
    rw [e]
  exact ⟨h, (C1_one_result_per_work_item backendTimeout [modelA] [("p")] 2 [0] h).2⟩

/-- C2: in the semaphore-bounded task set, for concurrency `c > 1`, every
state reachable from `n` queued items and a fresh `asyncio.Semaphore(c)` has
at most `c` generate calls in flight; admission is guarded only by a free
permit, acquired before the call and released on its completion. -/
theorem C2_in_flight_bounded_by_concurrency (c n : Nat) (s : SchedState)
    (hc : 1 < c) (h : SchedReachable c n s) : s.running ≤ c := by
  have hinv : s.permits + s.running = c := by
    induction h with
    | init => simp
    | step s t hs hstep ih =>
      cases hstep with
      | acquire hp hw =>
        show s.permits - 1 + (s.running + 1) = c
        omega
      | release hr =>
        show s.permits + 1 + (s.running - 1) = c
        omega
  omega

/-- Witness for C2: concurrency 2, three items, after one admission step one
call is in flight, which is at most 2. -/
theorem C2_witness :
    (1 : Nat) < 2 ∧ SchedState.running ⟨1, 2, 1, 0⟩ ≤ 2 := by
  have hstep : SchedStep ⟨2, 3, 0, 0⟩ ⟨1, 2, 1, 0⟩ :=
    SchedStep.acquire ⟨2, 3, 0, 0⟩ (by decide) (by decide)
  have hreach : SchedReachable 2 3 ⟨1, 2, 1, 0⟩ :=
    SchedReachable.step _ _ SchedReachable.init hstep
  exact ⟨by decide, C2_in_flight_bounded_by_concurrency 2 3 _ (by decide) hreach⟩

/-- C4: when concurrency equals 1 the results are produced strictly
sequentially in input order — the i-th collected result is the per-item
result of the i-th (model, prompt) pair of the pre-shuffled cross-product. -/
theorem C4_sequential_results_in_input_order (backend : Backend) (models : List Model)
    (prompts : List String) (order : List Nat) (concurrency : Int)
    (h : concurrency = 1) :
    ∀ i : Nat, (schedule backend concurrency order (tasks_to_run models prompts)).get? i
      = ((tasks_to_run models prompts).get? i).map
          (fun t => run_for_model_and_prompt backend t.1 t.2) := by
  subst h
  intro i
  unfold schedule
  rw [if_pos (by norm_num)]
  unfold run_sequential
  simp [List.get?_map]

/-- Witness for C4 at a concrete run with two models and one prompt. -/
theorem C4_witness :
    (schedule backendTimeout 1 [] (tasks_to_run [modelA, modelB] [("p")])).get? 0
      = ((tasks_to_run [modelA, modelB] [("p")]).get? 0).map
          (fun t => run_for_model_and_prompt backendTimeout t.1 t.2) :=
  C4_sequential_results_in_input_order backendTimeout [modelA, modelB] [("p")] [] 1 rfl 0

/-- C10: any concurrency value at most 0 takes the strictly sequential path
(`concurrency <= 1` in the source), so the run neither blocks on a
zero-permit semaphore nor raises: every work item still runs exactly once in
input order and the semaphore branch is never reached. -/
theorem C10_nonpositive_concurrency_runs_sequentially (backend : Backend)
    (models : List Model) (prompts : List String) (order : List Nat) (concurrency : Int)
    (h : concurrency ≤ 0) :
    schedule backend concurrency order (tasks_to_run models prompts)
      = (tasks_to_run models prompts).map
          (fun t => run_for_model_and_prompt backend t.1 t.2) := by
  unfold schedule
  rw [if_pos (le_trans h (by norm_num))]
  rfl

/-- Witness for C10 at concurrency `-1` (the completion-order argument `[5]`
for the never-taken concurrent branch is irrelevant). -/
theorem C10_witness :
    ((-1 : Int) ≤ 0) ∧
    schedule backendTimeout (-1) [5] (tasks_to_run [modelA] [("p")])
      = (tasks_to_run [modelA] [("p")]).map
          (fun t => run_for_model_and_prompt backendTimeout t.1 t.2) := by
  have h : (-1 : Int) ≤ 0 := by decide
  exact ⟨h, C10_nonpositive_concurrency_runs_sequentially backendTimeout [modelA] [("p")] [5] (-1) h⟩

/-- C3 (amended): a timed-out generate call yields status `timeout` with the
fixed error message `Generate timed out` (the code's literal; the claim's
quoted `generation timed out` is not the string the code uses); any other
exception yields status `error` with the exception description preserved;
and either failure is recorded only as data in that item's result — for any
backend behaviour the scheduler still returns one result per work item, on
both paths. -/
theorem C3_failures_recorded_as_data (backend : Backend) (m : Model) (p : String) :
    (∀ t : Rat, backend m.name p = (GenOutcome.timedOut, t) →
      run_for_model_and_prompt backend m p =
        { model := m, prompt := p, status := "timeout", elapsed := t
        , response := { error := some ("Generate timed out") } }) ∧
    (∀ (msg : String) (t : Rat), backend m.name p = (GenOutcome.exn msg, t) →
      run_for_model_and_prompt backend m p =
        { model := m, prompt := p, status := "error", elapsed := t
        , response := { error := some msg } }) ∧
    (∀ (concurrency : Int) (order : List Nat) (tasks : List (Model × String)),
      order.Perm (List.range tasks.length) →
      (schedule backend concurrency order tasks).length = tasks.length) := by
  refine ⟨?_, ?_, ?_⟩
  · intro t ht
    unfold run_for_model_and_prompt
    rw [ht]
  · intro msg t ht
    unfold run_for_model_and_prompt
    rw [ht]
  · intro concurrency order tasks hord
    unfold schedule
    by_cases hc : concurrency ≤ 1
    · rw [if_pos hc]
      simp [run_sequential]
    · rw [if_neg hc]
      rw [(run_concurrent_perm backend tasks order hord).length_eq]
      simp [run_sequential]

/-- Witness for C3 at a concrete timed-out item and a concrete two-item
erroring run under concurrency 1. -/
theorem C3_witness :
    run_for_model_and_prompt backendTimeout modelA ("p")
      = { model := modelA, prompt := ("p"), status := "timeout", elapsed := 0
        , response := { error := some ("Generate timed out") } } ∧
    (schedule backendFail 1 [1, 0] [(modelA, ("p")), (modelB, ("q"))]).length = 2 := by
  have h1 := (C3_failures_recorded_as_data backendTimeout modelA ("p")).1 0 rfl
  have hperm : List.Perm [1, 0]
      (List.range ([(modelA, ("p")), (modelB, ("q"))] : List (Model × String)).length) := by
    have e : List.range ([(modelA, ("p")), (modelB, ("q"))] : List (Model × String)).length
        = [0, 1] := rfl
    rw [e]
    exact List.Perm.swap 0 1 []
  have h2 := (C3_failures_recorded_as_data backendFail modelA ("p")).2.2 1 [1, 0]
    [(modelA, ("p")), (modelB, ("q"))] hperm
  exact ⟨h1, h2⟩

/-- C3 counterexample: the fixed timeout message the code records is
`Generate timed out`, which is not the claim's `generation timed out`. -/
theorem C3_counterexample :
    (run_for_model_and_prompt backendTimeout modelA ("p")).status = "timeout" ∧
    (run_for_model_and_prompt backendTimeout modelA ("p")).response.error
      = some ("Generate timed out") ∧
    ("Generate timed out" : String) ≠ ("generation timed out" : String) := by
  refine ⟨rfl, rfl, by decide⟩

/-- C5: with a non-empty requested-name set, the selection is exactly the
backend models whose name equals a requested name, as a filter of the
backend listing (so in listing order); requested names matching no backend
model are returned as warnings while the run proceeds; and when no backend
model matches at all the run fails with `NoMatchingModels` before any
generate call — the failed run's outcome is independent of the backend. -/
theorem C5_model_selection (all_models : List Model) (requested : List String)
    (h : requested ≠ []) :
    (((all_models.filter (fun m => requested.any (fun r => m.name.eqStr r))).isEmpty = false) →
      ∃ warn : List String,
        select_models all_models requested
          = Except.ok (all_models.filter (fun m => requested.any (fun r => m.name.eqStr r)), warn) ∧
        (∀ r : String, r ∈ warn ↔ r ∈ requested ∧ ∀ m ∈ all_models, m.name.eqStr r = false)) ∧
    (((all_models.filter (fun m => requested.any (fun r => m.name.eqStr r))).isEmpty = true) →
      select_models all_models requested
        = Except.error (BenchFailure.noMatchingModels requested (all_models.map Model.name)) ∧
      ∀ (backend backend2 : Backend) (shuffleOrd : List Nat) (concurrency : Int)
        (order : List Nat) (pf : Option (List String)) (pt : Option String),
        benchmark_results backend all_models requested shuffleOrd concurrency order pf pt
          = Except.error (BenchFailure.noMatchingModels requested (all_models.map Model.name)) ∧
        benchmark_results backend all_models requested shuffleOrd concurrency order pf pt
          = benchmark_results backend2 all_models requested shuffleOrd concurrency order pf pt) := by
  have hne : requested.isEmpty = false := by
    cases requested with
    | nil => exact absurd rfl h
    | cons a t => rfl
  constructor
  · intro hfil
    refine ⟨requested.filter (fun item => !((all_models.map Model.name).any (fun v => v.eqStr item))), ?_, ?_⟩
    · unfold select_models
      rw [hne]
      simp only [Bool.not_false, if_true, hfil, Bool.false_eq_true, if_false]
    · intro r
      simp only [List.mem_filter, Bool.not_eq_true', List.any_eq_false, List.mem_map]
      constructor
      · rintro ⟨hr, hall⟩
        exact ⟨hr, fun m hm => by simpa using hall _ ⟨m, hm, rfl⟩⟩
      · rintro ⟨hr, hall⟩
        refine ⟨hr, fun v hv => ?_⟩
        obtain ⟨m, hm, rfl⟩ := hv
        simpa using hall m hm
  · intro hfil
    have hsel : select_models all_models requested
        = Except.error (BenchFailure.noMatchingModels requested (all_models.map Model.name)) := by
      unfold select_models
      rw [hne]
      simp only [Bool.not_false, if_true, hfil, if_true]
    refine ⟨hsel, ?_⟩
    intro backend backend2 shuffleOrd concurrency order pf pt
    constructor
    · unfold benchmark_results
      rw [hsel]
    · unfold benchmark_results
      rw [hsel]

/-- Witness for C5 at a backend listing `model-a, model-b` and the request
`model-b, model-z`: the selection is the filter (just `model-b`) and the
warning set is characterized as the unmatched requested names. -/
theorem C5_witness :
    ((["model-b", "model-z"] : List String) ≠ []) ∧
    (∃ warn : List String,
      select_models [modelA, modelB] ["model-b", "model-z"]
        = Except.ok ([modelA, modelB].filter
            (fun m => ["model-b", "model-z"].any (fun r => m.name.eqStr r)), warn) ∧
      (∀ r : String, r ∈ warn ↔ r ∈ (["model-b", "model-z"] : List String) ∧
        ∀ m ∈ [modelA, modelB], m.name.eqStr r = false)) := by
  have h : (["model-b", "model-z"] : List String) ≠ [] := by
    intro hcon
    cases hcon
  refine ⟨h, (C5_model_selection [modelA, modelB] ["model-b", "model-z"] h).1 (by rfl)⟩

/-- Truthiness of an optional counter: present and nonzero. -/
theorem truthyCount_eq_true {o : Option Nat} :
    truthyCount o = true ↔ ∃ n : Nat, o = some n ∧ 0 < n := by
  cases o with
  | none => simp [truthyCount]
  | some n =>
    simp only [truthyCount, bne_iff_ne, ne_eq, Option.some.injEq]
    constructor
    · intro hn
      exact ⟨n, rfl, Nat.pos_of_ne_zero hn⟩
    · rintro ⟨m, hm, hpos⟩
      subst hm
      omega

/-- C6: a prompt rate appears in the metrics payload only when the prompt
counter and duration are both present and the duration is positive, and then
it equals `count / duration * 1e9`; a missing or zero duration yields no
rate field at all (no crash, no infinity); analogously for the response
rate. Counters are embedded as natural numbers (the backend's token and
nanosecond counts) and division is exact over ℚ. -/
theorem C6_rate_derivation (resp : RespDict) :
    (∀ r : Rat, (build_metrics resp).prompt_tokens_per_sec = some r →
      ∃ c d : Nat, resp.prompt_eval_count = some c ∧ resp.prompt_eval_duration = some d ∧
        0 < d ∧ r = (c : Rat) / (d : Rat) * (1000000000 : Rat)) ∧
    ((resp.prompt_eval_duration = none ∨ resp.prompt_eval_duration = some 0) →
      (build_metrics resp).prompt_tokens_per_sec = none) ∧
    (∀ r : Rat, (build_metrics resp).response_tokens_per_sec = some r →
      ∃ c d : Nat, resp.eval_count = some c ∧ resp.eval_duration = some d ∧
        0 < d ∧ r = (c : Rat) / (d : Rat) * (1000000000 : Rat)) ∧
    ((resp.eval_duration = none ∨ resp.eval_duration = some 0) →
      (build_metrics resp).response_tokens_per_sec = none) := by
  refine ⟨?_, ?_, ?_, ?_⟩
  · intro r hr
    unfold build_metrics at hr
    by_cases hcond : (truthyCount resp.prompt_eval_count && truthyCount resp.prompt_eval_duration) = true
    · obtain ⟨hc, hd⟩ := Bool.and_eq_true_iff.mp hcond
      obtain ⟨c, hc1, hc2⟩ := truthyCount_eq_true.mp hc
      obtain ⟨d, hd1, hd2⟩ := truthyCount_eq_true.mp hd
      refine ⟨c, d, hc1, hd1, hd2, ?_⟩
      rw [if_pos hcond] at hr
      rw [hc1, hd1] at hr
      simpa using hr.symm
    · rw [if_neg hcond] at hr
      exact absurd hr (by simp)
  · intro hd
    have hdf : truthyCount resp.prompt_eval_duration = false := by
      cases hd with
      | inl h1 => rw [h1]; rfl
      | inr h1 => rw [h1]; rfl
    simp [build_metrics, hdf]
  · intro r hr
    unfold build_metrics at hr
    by_cases hcond : (truthyCount resp.eval_count && truthyCount resp.eval_duration) = true
    · obtain ⟨hc, hd⟩ := Bool.and_eq_true_iff.mp hcond
      obtain ⟨c, hc1, hc2⟩ := truthyCount_eq_true.mp hc
      obtain ⟨d, hd1, hd2⟩ := truthyCount_eq_true.mp hd
      refine ⟨c, d, hc1, hd1, hd2, ?_⟩
      rw [if_pos hcond] at hr
      rw [hc1, hd1] at hr
      simpa using hr.symm
    · rw [if_neg hcond] at hr
      exact absurd hr (by simp)
  · intro hd
    have hdf : truthyCount resp.eval_duration = false := by
      cases hd with
      | inl h1 => rw [h1]; rfl
      | inr h1 => rw [h1]; rfl
    simp [build_metrics, hdf]

/-- Witness for C6 at the spec's own example: prompt count 100 over one
second gives exactly 100 tokens/sec, and a zero response duration gives no
response rate. -/
theorem C6_witness :
    (∃ c d : Nat, respExample.prompt_eval_count = some c ∧
      respExample.prompt_eval_duration = some d ∧ 0 < d ∧
      (100 : Rat) = (c : Rat) / (d : Rat) * (1000000000 : Rat)) ∧
    (build_metrics respExample).response_tokens_per_sec = none := by
  refine ⟨(C6_rate_derivation respExample).1 100 ?_, (C6_rate_derivation respExample).2.2.2 (Or.inr rfl)⟩
  show (build_metrics respExample).prompt_tokens_per_sec = some 100
  norm_num [build_metrics, respExample, truthyCount]

/-- C7 (amended): prompt resolution draws from exactly one source with
precedence explicit file > explicit single prompt > built-in default: a
given file contributes its stripped non-blank lines in order without
deduplication (so an all-blank file yields the empty sequence, not a
non-empty one) regardless of any single prompt also given; without a file, a
given non-empty single prompt yields that one-element sequence, while a
missing or empty single prompt yields the built-in default; without a file
the result is always non-empty. -/
theorem C7_prompt_resolution (pf : Option (List String)) (pt : Option String) :
    (∀ lines : List String, pf = some lines →
      build_prompts pf pt = (lines.map pyStrip).filter (fun s => s != "") ∧
      ∀ pt2 : Option String, build_prompts pf pt2 = build_prompts pf pt) ∧
    (∀ t : String, pf = none → pt = some t → t ≠ "" → build_prompts pf pt = [t]) ∧
    (pf = none → (pt = none ∨ pt = some "") → build_prompts pf pt = [DEFAULT_PROMPT]) ∧
    (pf = none → build_prompts pf pt ≠ []) := by
  refine ⟨?_, ?_, ?_, ?_⟩
  · intro lines hpf
    subst hpf
    exact ⟨rfl, fun pt2 => rfl⟩
  · intro t hpf hpt ht
    subst hpf
    subst hpt
    show (if (t != "") = true then [t] else [DEFAULT_PROMPT]) = [t]
    rw [if_pos (by simpa using ht)]
  · intro hpf hor
    subst hpf
    cases hor with
    | inl h1 => subst h1; rfl
    | inr h1 => subst h1; rfl
  · intro hpf
    subst hpf
    cases pt with
    | none => simp [build_prompts]
    | some t =>
      show (if (t != "") = true then [t] else [DEFAULT_PROMPT]) ≠ []
      by_cases ht : (t != "") = true
      · rw [if_pos ht]; simp
      · rw [if_neg ht]; simp

/-- Witness for C7: a file with blanks and repeats wins over a given single
prompt; a bare single prompt yields itself; no input yields the default; and
the no-file result is non-empty. -/
theorem C7_witness :
    build_prompts (some [(" a "), (""), (" a ")]) (some ("x"))
      = (([(" a "), (""), (" a ")] : List String).map pyStrip).filter (fun s => s != "") ∧
    build_prompts none (some ("hi")) = [("hi")] ∧
    build_prompts none none = [DEFAULT_PROMPT] ∧
    build_prompts none (some ("hi")) ≠ [] := by
  have h1 := C7_prompt_resolution (some [(" a "), (""), (" a ")]) (some ("x"))
  have h2 := C7_prompt_resolution none (some ("hi"))
  have h3 := C7_prompt_resolution none none
  exact ⟨(h1.1 _ rfl).1, h2.2.1 ("hi") rfl rfl (by decide), h3.2.2.1 rfl (Or.inl rfl), h2.2.2.2 rfl⟩

/-- C7 counterexample: a prompts file whose only line is blank resolves to
the empty sequence, refuting the claimed unconditional non-emptiness; and an
explicitly given empty single prompt falls through to the built-in default
rather than yielding the one-element sequence of the given prompt. -/
theorem C7_counterexample :
    build_prompts (some [("")]) none = [] ∧
    build_prompts none (some ("")) ≠ [("")] := by
  constructor
  · rfl
  · intro hcon
    have : DEFAULT_PROMPT = "" := by
      have h2 : build_prompts none (some ("")) = [DEFAULT_PROMPT] := rfl
      rw [h2] at hcon
      exact (List.cons.injEq _ _ _ _).mp hcon |>.1
    exact absurd this (by decide)

/-- C8: every entry of the serialized results array carries exactly one
payload variant consistent with its status — a metrics payload exactly when
the status is `ok`, an error message exactly when it is not — while the
model name, prompt, status and elapsed time of the underlying result are
present on every entry. -/
theorem C8_entry_payload_variant (includeResponse : Bool) (results : List RawResult)
    (e : ResultEntry) (he : e ∈ serialize_results includeResponse results) :
    (e.metrics.isSome ↔ e.status = "ok") ∧
    (e.error.isSome ↔ e.status ≠ "ok") ∧
    (∃ r ∈ results, e.model = r.model.name ∧ e.prompt = r.prompt ∧
      e.status = r.status ∧ e.elapsed = r.elapsed) := by
  unfold serialize_results at he
  obtain ⟨r, hr, he⟩ := List.mem_map.mp he
  subst he
  unfold make_result_entry
  by_cases h : r.status = "ok"
  · rw [if_pos h]
    exact ⟨by simp [h], by simp [h], ⟨r, hr, rfl, rfl, rfl, rfl⟩⟩
  · rw [if_neg h]
    exact ⟨by simp [h], by simp [h], ⟨r, hr, rfl, rfl, rfl, rfl⟩⟩

/-- Witness for C8 at the serialized entry of one timed-out result. -/
theorem C8_witness :
    (entryT.metrics.isSome ↔ entryT.status = "ok") ∧
    (entryT.error.isSome ↔ entryT.status ≠ "ok") ∧
    (∃ r ∈ [rawT], entryT.model = r.model.name ∧ entryT.prompt = r.prompt ∧
      entryT.status = r.status ∧ entryT.elapsed = r.elapsed) :=
  C8_entry_payload_variant false [rawT] entryT (by simp [serialize_results, entryT])

/-- Setting one key of a Python dict never removes another key. -/
theorem containsKey_dictSet (d : PyDict) (kset k : String) (v : Val)
    (h : containsKey d k = true) : containsKey (dictSet d kset v) k = true := by
  unfold dictSet
  cases hcd : containsKey d kset with
  | true =>
    simp only [hcd, if_true]
    unfold containsKey at h ⊢
    obtain ⟨kv, hmem, hkv⟩ := List.any_eq_true.mp h
    apply List.any_eq_true.mpr
    refine ⟨if kv.1 == kset then (kset, v) else kv, List.mem_map_of_mem _ hmem, ?_⟩
    by_cases he : (kv.1 == kset) = true
    · rw [if_pos he]
      have h1 : kv.1 = kset := by simpa using he
      have h2 : kv.1 = k := by simpa using hkv
      rw [← h1, h2]
      simp
    · rw [if_neg he]
      exact hkv
  | false =>
    simp only [hcd, Bool.false_eq_true, if_false]
    unfold containsKey at h ⊢
    simp [List.any_append, h]

/-- Conditionally setting one key of a Python dict never removes a key. -/
theorem containsKey_dictSet_opt (d : PyDict) (c : Bool) (kset k : String) (v : Val)
    (h : containsKey d k = true) :
    containsKey (if c then dictSet d kset v else d) k = true := by
  cases c with
  | false => simpa using h
  | true => simpa using containsKey_dictSet d kset k v h

/-- Conditionally writing `modified_at` never removes a key. -/
theorem containsKey_match_modified (d : PyDict) (o : Option String) (k : String)
    (h : containsKey d k = true) :
    containsKey (match o with
      | some iso => dictSet d ("modified_at") (Val.vStr iso)
      | none => d) k = true := by
  cases o with
  | none => exact h
  | some iso => exact containsKey_dictSet d ("modified_at") k (Val.vStr iso) h

/-- Every key of the raw `meta` mapping survives `to_dict`. -/
theorem containsKey_to_dict (m : Model) (k : String) (h : containsKey m.meta k = true) :
    containsKey m.to_dict k = true := by
  simp only [Model.to_dict]
  apply containsKey_dictSet_opt
  apply containsKey_dictSet_opt
  apply containsKey_dictSet_opt
  apply containsKey_dictSet_opt
  apply containsKey_dictSet_opt
  apply containsKey_dictSet_opt
  apply containsKey_match_modified
  apply containsKey_dictSet_opt
  apply containsKey_dictSet
  exact h

/-- C9: for every dict accepted by `Model.from_dict`, the raw metadata is
preserved for passthrough through the round-trip: every key of the input
dict is still present in `to_dict`'s output, which starts from the preserved
raw mapping and only adds or overwrites the normalized fields. -/
theorem C9_roundtrip_preserves_keys (d : PyDict) (m : Model)
    (h : Model.from_dict d = some m) :
    ∀ k : String, containsKey d k = true → containsKey m.to_dict k = true := by
  intro k hk
  have hmeta : m.meta = d := by
    unfold Model.from_dict at h
    split at h
    · injection h with h2
      subst h2
      rfl
    · exact Option.noConfusion h
  apply containsKey_to_dict
  rw [hmeta]
  exact hk

/-- Witness for C9 at a concrete dict: the passthrough key `size` survives
the round-trip. -/
theorem C9_witness :
    Model.from_dict dExample = some modelExample ∧
    containsKey (Model.to_dict modelExample) ("size") = true := by
  have h : Model.from_dict dExample = some modelExample := rfl
  exact ⟨h, C9_roundtrip_preserves_keys dExample modelExample h ("size") rfl⟩

end OllamaBench
